import Mathlib

/-!
# Verification of the runner token service lifecycle and policy engine

A shallow embedding, in Lean 4, of the runner provisioning, label policy
and reconciliation logic of the `gha-runner-token-service` repository
(`app/services/label_policy_service.py`, `app/services/runner_service.py`,
`app/services/sync_service.py`), together with theorems settling the
specification claims about it.

Modelling conventions:
* Database rows become Lean structures; JSON-encoded text columns
  (`labels`, `provisioned_labels`, `allowed_labels`, `label_patterns`)
  are represented already parsed, as `List String` / `Option (List String)`.
* Timestamps are integers (seconds since the epoch); `datetime.now(...)`
  becomes an explicit `now : Int` parameter.
* Python's `re` module is external to the repository, so regular-expression
  matching is abstracted as a `RegexEngine`: `valid p` says whether the
  pattern compiles (no `re.error`), `rmatch p s` is the boolean outcome of
  the start-anchored `re.match(p, s)`.
* Network calls (the GitHub client) are modelled by passing their observed
  outcome as a parameter; remedial external deletions are recorded as a
  list of attempted GitHub runner ids, and security events as a list of
  `SecurityEvent` values (the free-form JSON `violation_data` payload of an
  event is not modelled).
-/

namespace RunnerTokenService

/-- A row of the `runners` table (`app/models.py`, class `Runner`), with the
JSON text columns parsed. `updated_at` is ORM-managed and never touched by
the embedded logic. -/
structure Runner where
  id : String
  runner_name : String
  github_runner_id : Option Int
  runner_group_id : Int
  labels : List String
  ephemeral : Bool
  disable_update : Bool
  provisioned_by : String
  oidc_sub : Option String
  status : String
  provisioning_method : String
  /-- `provisioned_labels` parsed from its JSON text column; `none` stands
  for SQL NULL, the empty string, and text that fails to parse as JSON
  (the three cases in which `_check_label_drift` skips the runner). -/
  provisioned_labels : Option (List String)
  registration_token : Option String
  registration_token_expires_at : Option Int
  github_url : String
  created_at : Int
  updated_at : Int
  registered_at : Option Int
  deleted_at : Option Int
  deriving DecidableEq, Repr

/-- A row of the `label_policies` table (`app/models.py`, class
`LabelPolicy`), with `allowed_labels` and `label_patterns` parsed from
their JSON text columns. -/
structure LabelPolicy where
  allowed_labels : List String
  label_patterns : Option (List String)
  max_runners : Option Int
  require_approval : Bool
  deriving DecidableEq, Repr

/-- GitHub runner data as decoded by `GitHubRunnerInfo.__init__`
(`app/github/client.py`). -/
structure GitHubRunnerInfo where
  id : Int
  name : String
  os : Option String
  status : String
  busy : Bool
  labels : List String
  deriving DecidableEq, Repr

/-- The configuration fields of `Settings` (`app/config.py`) consumed by the
embedded services. -/
structure Settings where
  cleanup_stale_runners_hours : Int
  label_drift_delete_busy_runners : Bool
  deriving DecidableEq, Repr

/-- A row of the `security_events` table as created by
`LabelPolicyService.log_security_event`; the opaque JSON `violation_data`
payload is not modelled. -/
structure SecurityEvent where
  event_type : String
  severity : String
  user_identity : String
  oidc_sub : Option String
  runner_id : Option String
  runner_name : Option String
  github_runner_id : Option Int
  action_taken : Option String
  deriving DecidableEq, Repr

/-- Abstraction of Python's `re` module (external to the repository):
`valid p` holds when compiling the pattern raises no `re.error`, and
`rmatch p s` is the boolean outcome of the start-anchored `re.match(p, s)`. -/
structure RegexEngine where
  valid : String → Bool
  rmatch : String → String → Bool

/-- ASCII lowercasing of one character (Python's `str.lower`, restricted to
the ASCII range in which the repository's labels live). -/
def lowerChar (c : Char) : Char :=
  if 'A' ≤ c ∧ c ≤ 'Z' then Char.ofNat (c.toNat + 32) else c

/-- Python's `str.lower` on a string. -/
def strLower (s : String) : String := ⟨s.data.map lowerChar⟩

/-- Python's `str.startswith`. -/
def strStartsWith (s pre : String) : Bool := pre.data.isPrefixOf s.data

/-- `LabelPolicyService.SYSTEM_LABEL_PREFIXES`
(`app/services/label_policy_service.py`). -/
def SYSTEM_LABEL_PREFIXES : List String := ["self-hosted"]

/-- `LabelPolicyService._is_user_label`: a label is user-defined unless its
lowercased form starts with one of the system prefixes. -/
def is_user_label (label : String) : Bool :=
  let label_lower := strLower label
  !(SYSTEM_LABEL_PREFIXES.any (fun prefix_ => strStartsWith label_lower prefix_))

/-- The inner pattern loop of `LabelPolicyService.validate_labels`
(lines 91–100): a label is matched when some configured pattern compiles
and `re.match` succeeds on it; invalid patterns are skipped silently. -/
def matchesAnyPattern (M : RegexEngine) (patterns : List String)
    (label : String) : Bool :=
  patterns.any (fun p => M.valid p && M.rmatch p label)

/-- `LabelPolicyService.validate_labels`. The policy lookup result is
passed in (`get_policy` is a database read). Returns `some invalid_labels`
when the Python code raises `LabelPolicyViolation`, and `none` when it
returns normally. -/
def validate_labels (M : RegexEngine) (policy : Option LabelPolicy)
    (requested_labels : List String) : Option (Finset String) :=
  match policy with
  | none => none
  | some p =>
    if "*" ∈ p.allowed_labels then none
    else
      let label_patterns := p.label_patterns.getD []
      let user_labels := requested_labels.filter is_user_label
      let invalid_labels : Finset String :=
        (user_labels.filter (fun label =>
          !(decide (label ∈ p.allowed_labels)) &&
          !(matchesAnyPattern M label_patterns label))).toFinset
      if invalid_labels = ∅ then none else some invalid_labels

/-- `LabelPolicyService.check_runner_quota`. Returns `true` when the Python
code raises the quota-exceeded `ValueError`. -/
def check_runner_quota (policy : Option LabelPolicy)
    (current_count : Int) : Bool :=
  match policy with
  | some p =>
    match p.max_runners with
    | some m => decide (current_count ≥ m)
    | none => false
  | none => false

/-- `LabelPolicyService.verify_labels_match`: the set of labels missing
from `actual_labels` or unexpectedly present there, system labels excluded
from the comparison. -/
def verify_labels_match (expected_labels actual_labels : List String) :
    Finset String :=
  let expected_set := (expected_labels.filter is_user_label).toFinset
  let actual_set := (actual_labels.filter is_user_label).toFinset
  let missing_labels := expected_set \ actual_set
  let unexpected_labels := actual_set \ expected_set
  missing_labels ∪ unexpected_labels

/-! ## Provisioning-time quota check (`app/services/runner_service.py`) -/

/-- The count query of `RunnerService.provision_runner` (lines 136–139):
the user's runners whose status is in `["pending", "active", "offline"]`. -/
def active_runner_count (db : List Runner) (identity : String) : Nat :=
  (db.filter (fun r =>
    r.provisioned_by == identity &&
    (["pending", "active", "offline"].contains r.status))).length

/-- The quota step of `provision_runner` (lines 141–168): `true` when the
quota `ValueError` is raised (and the security event / audit log are
written, which only happen on that path). -/
def provision_quota_error (policy : Option LabelPolicy) (db : List Runner)
    (identity : String) : Bool :=
  check_runner_quota policy ((active_runner_count db identity : Int))

/-- Modelled from the spec (§4.2 `checkQuota`): the count of the subject's
runners in a non-terminal state, "status ∈ {`pending`,`online`,`offline`}".
Used only to compare the specified count with `active_runner_count`. -/
def spec_nonterminal_count (db : List Runner) (identity : String) : Nat :=
  (db.filter (fun r =>
    r.provisioned_by == identity &&
    (["pending", "online", "offline"].contains r.status))).length

/-! ## Reconciliation engine (`app/services/sync_service.py`) -/

/-- The counters of `SyncResult` (`app/services/sync_service.py`). -/
structure SyncResult where
  updated : Nat := 0
  deleted : Nat := 0
  unchanged : Nat := 0
  errors : Nat := 0
  policy_violations : Nat := 0
  label_drifts : Nat := 0
  deriving DecidableEq, Repr

/-- Field-wise sum of two `SyncResult` counter records (the loop of
`sync_all_runners` increments counters runner by runner). -/
def addSyncResult (a b : SyncResult) : SyncResult :=
  ⟨a.updated + b.updated, a.deleted + b.deleted, a.unchanged + b.unchanged,
   a.errors + b.errors, a.policy_violations + b.policy_violations,
   a.label_drifts + b.label_drifts⟩

/-- The errors `sync_all_runners` can raise from the single
`list_runners()` call: `SyncRateLimitedError` on HTTP 403, a plain
`SyncError` on another HTTP status, `SyncNetworkError` on a request error. -/
inductive SyncErr where
  | rateLimited : SyncErr
  | githubError (status_code : Nat) : SyncErr
  | networkError : SyncErr
  deriving DecidableEq, Repr

/-- Outcome of the one `github.list_runners()` call of a cycle, passed in
as the observed behaviour of the network. -/
inductive ListingOutcome where
  | ok (runners : List GitHubRunnerInfo) : ListingOutcome
  | httpError (status_code : Nat) : ListingOutcome
  | networkError : ListingOutcome
  deriving DecidableEq, Repr

/-- The lookup `github_by_name = {r.name: r for r in github_runners}`
(line 111): a Python dict comprehension keeps the last entry for a
duplicated name. -/
def github_by_name (github_runners : List GitHubRunnerInfo)
    (name : String) : Option GitHubRunnerInfo :=
  (github_runners.filter (fun g => g.name == name)).getLast?

/-- `SyncService._is_token_expired`: explicit expiry when present,
otherwise a `cleanup_stale_runners_hours` age cutoff on `created_at`. -/
def is_token_expired (s : Settings) (now : Int) (r : Runner) : Bool :=
  match r.registration_token_expires_at with
  | none =>
    let cutoff := now - s.cleanup_stale_runners_hours * 3600
    decide (r.created_at < cutoff)
  | some expiry => decide (expiry < now)

/-- `SyncService._mark_deleted`: status to `deleted`, `deleted_at` stamped,
registration token and its expiry cleared. -/
def mark_deleted (now : Int) (r : Runner) : Runner :=
  { r with
    status := "deleted"
    deleted_at := some now
    registration_token := none
    registration_token_expires_at := none }

/-- Python truthiness of a nullable string column (`None` and the empty
string are falsy). -/
def py_truthy (o : Option String) : Bool :=
  match o with
  | none => false
  | some s => !s.isEmpty

/-- `SyncService._update_runner_from_github`: the updated runner and the
`changed` flag. -/
def update_runner_from_github (now : Int) (r : Runner)
    (github_runner : GitHubRunnerInfo) : Runner × Bool :=
  let new_status := github_runner.status
  let r1 := if r.status ≠ new_status then { r with status := new_status } else r
  let r2 :=
    if r1.github_runner_id ≠ some github_runner.id then
      { r1 with github_runner_id := some github_runner.id }
    else r1
  let r3 :=
    if r2.registered_at = none then { r2 with registered_at := some now }
    else r2
  let r4 :=
    if py_truthy r3.registration_token then
      { r3 with
        registration_token := none
        registration_token_expires_at := none }
    else r3
  let changed :=
    decide (r.status ≠ new_status) ||
    decide (r1.github_runner_id ≠ some github_runner.id) ||
    decide (r2.registered_at = none) ||
    py_truthy r3.registration_token
  (r4, changed)

/-- The security event logged by `_handle_policy_violation`
(lines 373–387). -/
def policy_violation_event (r : Runner) (g : GitHubRunnerInfo) :
    SecurityEvent :=
  { event_type := "label_policy_violation"
    severity := "high"
    user_identity := r.provisioned_by
    oidc_sub := none
    runner_id := some r.id
    runner_name := some r.runner_name
    github_runner_id := some g.id
    action_taken := some "runner_deleted" }

/-- The security event logged by `_check_label_drift`, with
`action_taken` either `"logged_only"` (busy runner kept) or
`"runner_deleted"`. -/
def drift_event (r : Runner) (g : GitHubRunnerInfo) (action : String) :
    SecurityEvent :=
  { event_type := "label_drift_detected"
    severity := "high"
    user_identity := r.provisioned_by
    oidc_sub := none
    runner_id := some r.id
    runner_name := some r.runner_name
    github_runner_id := some g.id
    action_taken := some action }

/-- Outcome of `SyncService._check_label_drift`: `noDrift` when the method
returns `False` without logging, `loggedOnly` when it logs the busy-runner
event and returns `False`, `deleted` when it attempts the external delete,
logs, and returns `True`. -/
inductive DriftResult where
  | noDrift : DriftResult
  | loggedOnly (event : SecurityEvent) : DriftResult
  | deleted (event : SecurityEvent) : DriftResult
  deriving DecidableEq, Repr

/-- `SyncService._check_label_drift` (lines 392–526): only JIT runners with
stored `provisioned_labels` are checked; drift is the raw set difference
between the provisioned and the current labels; a busy runner is kept
(logged only) unless `label_drift_delete_busy_runners` is set. -/
def check_label_drift (s : Settings) (r : Runner)
    (github_runner : GitHubRunnerInfo) : DriftResult :=
  if r.provisioning_method ≠ "jit" then .noDrift
  else
    match r.provisioned_labels with
    | none => .noDrift
    | some pl =>
      let original_labels : Finset String := pl.toFinset
      let current_labels : Finset String := github_runner.labels.toFinset
      let added_labels := current_labels \ original_labels
      let removed_labels := original_labels \ current_labels
      if added_labels = ∅ ∧ removed_labels = ∅ then .noDrift
      else if github_runner.busy && !s.label_drift_delete_busy_runners then
        .loggedOnly (drift_event r github_runner "logged_only")
      else
        .deleted (drift_event r github_runner "runner_deleted")

/-- What processing one local runner contributes to the cycle: its new
state, its counter deltas, the security events appended, and the GitHub
runner ids whose external deletion was attempted. -/
structure PerRunnerResult where
  runner : Runner
  res : SyncResult
  events : List SecurityEvent
  deletes : List Int
  deriving Repr

/-- The body of the per-runner loop of `sync_all_runners` (lines 114–156)
for one local runner, given the cycle's `github_by_name` lookup result.
The policy read behind `_check_label_policy` is supplied by `policies`. -/
def process_runner (M : RegexEngine) (policies : String → Option LabelPolicy)
    (s : Settings) (now : Int) (github_runner : Option GitHubRunnerInfo)
    (r : Runner) : PerRunnerResult :=
  match github_runner with
  | some g =>
    match validate_labels M (policies r.provisioned_by) g.labels with
    | some _ =>
      { runner := mark_deleted now r
        res := { policy_violations := 1, deleted := 1 }
        events := [policy_violation_event r g]
        deletes := [g.id] }
    | none =>
      match check_label_drift s r g with
      | .deleted ev =>
        { runner := mark_deleted now r
          res := { label_drifts := 1, deleted := 1 }
          events := [ev]
          deletes := [g.id] }
      | .loggedOnly ev =>
        let (r', changed) := update_runner_from_github now r g
        { runner := r'
          res := if changed then { updated := 1 } else { unchanged := 1 }
          events := [ev]
          deletes := [] }
      | .noDrift =>
        let (r', changed) := update_runner_from_github now r g
        { runner := r'
          res := if changed then { updated := 1 } else { unchanged := 1 }
          events := []
          deletes := [] }
  | none =>
    if r.status == "pending" then
      if is_token_expired s now r then
        { runner := mark_deleted now r
          res := { deleted := 1 }
          events := []
          deletes := [] }
      else
        { runner := r, res := { unchanged := 1 }, events := [], deletes := [] }
    else
      { runner := mark_deleted now r
        res := { deleted := 1 }
        events := []
        deletes := [] }

/-- The loop of `sync_all_runners` over the local runners: deleted rows are
not selected by the query and pass through untouched, every other row is
processed by `process_runner`. -/
def sync_runners_loop (M : RegexEngine)
    (policies : String → Option LabelPolicy) (s : Settings) (now : Int)
    (lookup : String → Option GitHubRunnerInfo) :
    List Runner → List Runner × SyncResult × List SecurityEvent × List Int
  | [] => ([], {}, [], [])
  | r :: rest =>
    let (dbRest, resRest, evsRest, delsRest) :=
      sync_runners_loop M policies s now lookup rest
    if r.status == "deleted" then
      (r :: dbRest, resRest, evsRest, delsRest)
    else
      let pr := process_runner M policies s now (lookup r.runner_name) r
      (pr.runner :: dbRest, addSyncResult pr.res resRest,
       pr.events ++ evsRest, pr.deletes ++ delsRest)

/-- `SyncService.sync_all_runners`: the whole cycle, returning the database
after the cycle alongside the raised error or the cycle summary (counters,
security events, attempted external deletions). The one external listing
call's outcome is the `listing` parameter; on a listing failure the raised
error propagates before any local runner is touched. -/
def sync_all_runners (M : RegexEngine)
    (policies : String → Option LabelPolicy) (s : Settings) (now : Int)
    (db : List Runner) (listing : ListingOutcome) :
    List Runner × Except SyncErr (SyncResult × List SecurityEvent × List Int) :=
  if (db.filter (fun r => r.status != "deleted")).isEmpty then
    (db, .ok ({}, [], []))
  else
    match listing with
    | .httpError code =>
      if code == 403 then (db, .error .rateLimited)
      else (db, .error (.githubError code))
    | .networkError => (db, .error .networkError)
    | .ok github_runners =>
      let (db', res, evs, dels) :=
        sync_runners_loop M policies s now (github_by_name github_runners) db
      (db', .ok (res, evs, dels))

/-- `SyncService.sync_runner` (single-runner sync): the database row is
found by id; a deleted runner is returned as-is; otherwise the runner is
updated from the `get_runner_by_name` fetch (`fetch` parameter), or marked
deleted when absent and no longer pending. -/
def sync_runner (now : Int) (db : List Runner) (runner_id : String)
    (fetch : Option GitHubRunnerInfo) : List Runner × Option Runner :=
  match db.find? (fun r => r.id == runner_id) with
  | none => (db, none)
  | some r =>
    if r.status == "deleted" then (db, some r)
    else
      let r' :=
        match fetch with
        | some g => (update_runner_from_github now r g).1
        | none =>
          if r.status != "pending" then mark_deleted now r else r
      (db.map (fun x => if x.id == runner_id then r' else x), some r')

/-! ## Post-registration verification (`app/services/runner_service.py`) -/

/-- The security event logged by `_verify_labels_after_registration` on a
label mismatch (lines 487–503). -/
def verification_violation_event (r : Runner) (g : GitHubRunnerInfo)
    (oidc_sub : Option String) : SecurityEvent :=
  { event_type := "label_policy_violation"
    severity := "high"
    user_identity := r.provisioned_by
    oidc_sub := oidc_sub
    runner_id := some r.id
    runner_name := some r.runner_name
    github_runner_id := some g.id
    action_taken := some "runner_deleted" }

/-- The state-updating core of
`RunnerService._verify_labels_after_registration` (lines 445–523), after
the delay: no-op when the runner is already deleted or absent from GitHub;
on a `verify_labels_match` mismatch it logs, attempts the external delete,
and sets the local status to `deleted` — note the source clears neither
`registration_token` nor its expiry on this path. -/
def verify_labels_step (now : Int) (r : Runner)
    (github_runner : Option GitHubRunnerInfo) (expected_labels : List String)
    (oidc_sub : Option String) :
    Runner × List SecurityEvent × List Int :=
  if r.status == "deleted" then (r, [], [])
  else
    match github_runner with
    | none => (r, [], [])
    | some g =>
      let mismatched_labels := verify_labels_match expected_labels g.labels
      if mismatched_labels = ∅ then (r, [], [])
      else
        ({ r with status := "deleted", deleted_at := some now },
         [verification_violation_event r g oidc_sub], [g.id])

/-- The local-state update of `RunnerService.deprovision_runner`
(lines 400–408): status to `deleted`, `deleted_at` stamped, sensitive data
cleared. -/
def deprovision_update (now : Int) (r : Runner) : Runner :=
  { r with
    status := "deleted"
    deleted_at := some now
    registration_token := none
    registration_token_expires_at := none }

/-! ## Concrete fixtures for witnesses and counterexamples -/

/-- A regex engine for which every pattern fails to compile (concrete
instantiations never rely on pattern matching). -/
def M0 : RegexEngine := ⟨fun _ => false, fun _ _ => false⟩

/-- A policy allowing exactly the label `"a"`, no patterns, quota 1. -/
def p0 : LabelPolicy :=
  { allowed_labels := ["a"], label_patterns := none, max_runners := some 1,
    require_approval := false }

/-- A policy store with no policy for any subject. -/
def noPolicies : String → Option LabelPolicy := fun _ => none

/-- Settings: 24h stale cutoff, busy drifted runners are kept. -/
def settings0 : Settings :=
  { cleanup_stale_runners_hours := 24,
    label_drift_delete_busy_runners := false }

/-- A freshly provisioned pending runner holding a registration token. -/
def pendingRunner : Runner :=
  { id := "r-1", runner_name := "runner-1", github_runner_id := none,
    runner_group_id := 1, labels := ["gpu"], ephemeral := false,
    disable_update := false, provisioned_by := "user1", oidc_sub := none,
    status := "pending", provisioning_method := "registration_token",
    provisioned_labels := none, registration_token := some "tok",
    registration_token_expires_at := some 100,
    github_url := "https://github.com/org", created_at := 0, updated_at := 0,
    registered_at := none, deleted_at := none }

/-- An online registered runner (as written back by the sync engine). -/
def onlineRunner : Runner :=
  { pendingRunner with
    id := "r-2", runner_name := "runner-2", status := "online",
    github_runner_id := some 5, registration_token := none,
    registration_token_expires_at := none, registered_at := some 10 }

/-- A JIT-provisioned runner currently offline, provisioned with the
single label `"gpu"`. -/
def jitRunner : Runner :=
  { pendingRunner with
    id := "r-3", runner_name := "jit-1", status := "offline",
    github_runner_id := some 7, provisioning_method := "jit",
    provisioned_labels := some ["gpu"], registration_token := none,
    registration_token_expires_at := none, registered_at := some 10 }

/-- A deleted runner row. -/
def deletedRunner : Runner :=
  { pendingRunner with
    id := "r-4", runner_name := "runner-4", status := "deleted",
    registration_token := none, registration_token_expires_at := none,
    deleted_at := some 50 }

/-- External record for `jitRunner`, busy, with a drifted label list. -/
def gBusyDrifted : GitHubRunnerInfo :=
  { id := 7, name := "jit-1", os := none, status := "online", busy := true,
    labels := ["gpu", "extra"] }

/-- External record for `jitRunner`, idle, whose labels differ from the
provisioned ones only by the system label `self-hosted`. -/
def gSystemOnly : GitHubRunnerInfo :=
  { id := 7, name := "jit-1", os := none, status := "online", busy := false,
    labels := ["self-hosted", "gpu"] }

/-- External record for `pendingRunner` carrying an unexpected label. -/
def gHacked : GitHubRunnerInfo :=
  { id := 9, name := "runner-1", os := none, status := "online",
    busy := false, labels := ["hacked"] }

/-- External record for `jitRunner` whose labels equal the provisioned
ones exactly. -/
def gNoDrift : GitHubRunnerInfo :=
  { id := 7, name := "jit-1", os := none, status := "online", busy := false,
    labels := ["gpu"] }

/-! ## Helper lemmas -/

/-- `_update_runner_from_github` always leaves the runner carrying the
external record's status. -/
theorem update_runner_status (now : Int) (r : Runner)
    (g : GitHubRunnerInfo) :
    ((update_runner_from_github now r g).1).status = g.status := by
  simp only [update_runner_from_github]
  split_ifs <;> simp_all

/-- `_update_runner_from_github` never touches `status = deleted` markers:
the `deleted_at` field is unchanged. -/
theorem update_runner_deleted_at (now : Int) (r : Runner)
    (g : GitHubRunnerInfo) :
    ((update_runner_from_github now r g).1).deleted_at = r.deleted_at := by
  simp only [update_runner_from_github]
  split_ifs <;> rfl

/-- Membership in the invalid-label set built by `validate_labels`. -/
theorem mem_invalid_set (p : LabelPolicy) (M : RegexEngine)
    (requested_labels : List String) (l : String) :
    l ∈ ((requested_labels.filter is_user_label).filter (fun label =>
          !(decide (label ∈ p.allowed_labels)) &&
          !(matchesAnyPattern M (p.label_patterns.getD []) label))).toFinset ↔
      l ∈ requested_labels ∧ is_user_label l = true ∧
        l ∉ p.allowed_labels ∧
        matchesAnyPattern M (p.label_patterns.getD []) l = false := by
  simp only [List.mem_toFinset, List.mem_filter, Bool.and_eq_true,
    Bool.not_eq_true', Bool.not_eq_true, decide_eq_false_iff_not]
  tauto

/-- A label the policy rejects: user-defined, not an exact entry of
`allowed_labels`, and matched by no configured (compiling) pattern. -/
def unmatched_label (M : RegexEngine) (p : LabelPolicy) (l : String) : Bool :=
  is_user_label l && !(decide (l ∈ p.allowed_labels)) &&
    !(matchesAnyPattern M (p.label_patterns.getD []) l)

theorem unmatched_label_iff (M : RegexEngine) (p : LabelPolicy)
    (l : String) :
    unmatched_label M p l = true ↔
      is_user_label l = true ∧ l ∉ p.allowed_labels ∧
        matchesAnyPattern M (p.label_patterns.getD []) l = false := by
  simp [unmatched_label, Bool.and_eq_true, Bool.not_eq_true',
    decide_eq_false_iff_not, and_assoc]

/-- Any member of a raised `invalid_labels` set is a user-defined label. -/
theorem mem_validate_labels_user (M : RegexEngine)
    (policy : Option LabelPolicy) (requested_labels : List String)
    (S : Finset String) (l : String)
    (h : validate_labels M policy requested_labels = some S) (hl : l ∈ S) :
    l ∈ requested_labels ∧ is_user_label l = true ∧
      l ∉ policy.elim ∅ LabelPolicy.allowed_labels ∧
      matchesAnyPattern M ((policy.elim none LabelPolicy.label_patterns).getD [])
        l = false := by
  cases policy with
  | none => simp [validate_labels] at h
  | some p =>
    simp only [validate_labels] at h
    by_cases hw : "*" ∈ p.allowed_labels
    · simp [hw] at h
    · rw [if_neg hw] at h
      split_ifs at h with he
      have hS : S = _ := (Option.some.inj h).symm
      subst hS
      exact (mem_invalid_set p M requested_labels l).1 hl

/-- Unfolding of `_check_label_drift` on a JIT runner with stored
provisioned labels. -/
theorem check_label_drift_eq (s : Settings) (r : Runner)
    (g : GitHubRunnerInfo) (pl : List String)
    (hm : r.provisioning_method = "jit")
    (hp : r.provisioned_labels = some pl) :
    check_label_drift s r g =
      (if g.labels.toFinset \ pl.toFinset = ∅ ∧
          pl.toFinset \ g.labels.toFinset = ∅ then
        DriftResult.noDrift
      else if g.busy && !s.label_drift_delete_busy_runners then
        DriftResult.loggedOnly (drift_event r g "logged_only")
      else
        DriftResult.deleted (drift_event r g "runner_deleted")) := by
  unfold check_label_drift
  rw [if_neg (by simp [hm]), hp]

/-- Any member of a `verify_labels_match` mismatch set is a user-defined
label. -/
theorem mem_verify_labels_match_user (A B : List String) (l : String)
    (hl : l ∈ verify_labels_match A B) : is_user_label l = true := by
  unfold verify_labels_match at hl
  simp only [Finset.mem_union, Finset.mem_sdiff, List.mem_toFinset,
    List.mem_filter] at hl
  rcases hl with ⟨⟨-, h⟩, -⟩ | ⟨⟨-, h⟩, -⟩ <;> exact h

/-! ## Claim theorems -/

/-- **C9.** `verify_labels_match` is symmetric in its two arguments (it is
the symmetric difference of the system-label-stripped sets) and empty on
the diagonal. -/
theorem verify_labels_match_symm_and_diag (A B : List String) :
    verify_labels_match A B = verify_labels_match B A ∧
      verify_labels_match A A = ∅ := by
  constructor
  · unfold verify_labels_match
    exact Finset.union_comm _ _
  · unfold verify_labels_match
    simp

/-- **C5.** `validate_labels` raises `LabelPolicyViolation` iff a policy
exists, its `allowed_labels` lacks the wildcard `*`, and some user-defined
requested label is neither an exact `allowed_labels` entry nor matched by a
configured (compiling, start-anchored) pattern; the raised `invalid_labels`
is exactly the set of such labels; with no policy it always succeeds. -/
theorem validate_labels_characterization (M : RegexEngine)
    (policy : Option LabelPolicy) (requested_labels : List String) :
    (policy = none → validate_labels M policy requested_labels = none) ∧
    ∀ p, policy = some p →
      ((validate_labels M policy requested_labels).isSome = true ↔
        ("*" ∉ p.allowed_labels ∧
          ∃ l ∈ requested_labels, unmatched_label M p l = true)) ∧
      ∀ S, validate_labels M policy requested_labels = some S →
        ∀ l, l ∈ S ↔ l ∈ requested_labels ∧ unmatched_label M p l = true := by
  constructor
  · rintro rfl; rfl
  · rintro p rfl
    by_cases hw : "*" ∈ p.allowed_labels
    · refine ⟨by simp [validate_labels, hw], ?_⟩
      intro S hS
      simp [validate_labels, hw] at hS
    · have hval : validate_labels M (some p) requested_labels =
          (if ((requested_labels.filter is_user_label).filter (fun label =>
              !(decide (label ∈ p.allowed_labels)) &&
              !(matchesAnyPattern M (p.label_patterns.getD [])
                label))).toFinset = ∅ then
            none
          else
            some ((requested_labels.filter is_user_label).filter (fun label =>
              !(decide (label ∈ p.allowed_labels)) &&
              !(matchesAnyPattern M (p.label_patterns.getD [])
                label))).toFinset) := by
        simp only [validate_labels]
        rw [if_neg hw]
      by_cases he : ((requested_labels.filter is_user_label).filter
          (fun label => !(decide (label ∈ p.allowed_labels)) &&
            !(matchesAnyPattern M (p.label_patterns.getD [])
              label))).toFinset = ∅
      · rw [hval, if_pos he]
        refine ⟨?_, by intro S hS; exact absurd hS (by simp)⟩
        simp only [Option.isSome_none, Bool.false_eq_true, false_iff, not_and]
        rintro - ⟨l, hl, hu⟩
        rw [unmatched_label_iff] at hu
        have hmem : l ∈ ((requested_labels.filter is_user_label).filter
            (fun label => !(decide (label ∈ p.allowed_labels)) &&
              !(matchesAnyPattern M (p.label_patterns.getD [])
                label))).toFinset :=
          (mem_invalid_set p M requested_labels l).2 ⟨hl, hu.1, hu.2.1, hu.2.2⟩
        rw [he] at hmem
        exact absurd hmem (Finset.not_mem_empty l)
      · rw [hval, if_neg he]
        constructor
        · simp only [Option.isSome_some, true_iff]
          refine ⟨hw, ?_⟩
          obtain ⟨l, hl⟩ := Finset.nonempty_iff_ne_empty.2 he
          have hm := (mem_invalid_set p M requested_labels l).1 hl
          exact ⟨l, hm.1,
            (unmatched_label_iff M p l).2 ⟨hm.2.1, hm.2.2.1, hm.2.2.2⟩⟩
        · intro S hS l
          have hSe : S = _ := (Option.some.inj hS).symm
          subst hSe
          rw [mem_invalid_set]
          simp only [unmatched_label_iff]

/-- Witness for C5: with policy `p0` (`allowed_labels = ["a"]`, no
patterns) the request `["a", "b"]` raises. -/
theorem validate_labels_characterization_witness :
    (validate_labels M0 (some p0) ["a", "b"]).isSome = true :=
  (((validate_labels_characterization M0 (some p0) ["a", "b"]).2 p0
    rfl).1).mpr ⟨by decide, "b", by decide, by decide⟩

/-- **C10.** A label is a system label exactly when its lowercased form
starts with `self-hosted`; system labels are excluded from policy
validation and label comparison, so they never appear in a raised
`invalid_labels` set nor in a `verify_labels_match` mismatch set. -/
theorem system_label_exemption :
    (∀ l : String, is_user_label l = false ↔
        strStartsWith (strLower l) "self-hosted" = true) ∧
    (∀ (M : RegexEngine) (policy : Option LabelPolicy)
        (requested_labels : List String) (S : Finset String) (l : String),
        validate_labels M policy requested_labels = some S →
        strStartsWith (strLower l) "self-hosted" = true → l ∉ S) ∧
    (∀ (A B : List String) (l : String),
        strStartsWith (strLower l) "self-hosted" = true →
        l ∉ verify_labels_match A B) := by
  have hsys : ∀ l : String, is_user_label l = false ↔
      strStartsWith (strLower l) "self-hosted" = true := by
    intro l
    simp [is_user_label, SYSTEM_LABEL_PREFIXES]
  refine ⟨hsys, ?_, ?_⟩
  · intro M policy requested_labels S l hval hl hmem
    have huser := (mem_validate_labels_user M policy requested_labels S l
      hval hmem).2.1
    rw [(hsys l).mpr hl] at huser
    exact Bool.false_ne_true huser
  · intro A B l hl hmem
    have huser := mem_verify_labels_match_user A B l hmem
    rw [(hsys l).mpr hl] at huser
    exact Bool.false_ne_true huser

/-- Witness for C10: `"Self-Hosted-gpu"` is excluded from the
`invalid_labels` raised for `["a", "b", "Self-Hosted-gpu"]` under `p0`. -/
theorem system_label_exemption_witness :
    "Self-Hosted-gpu" ∉ ({"b"} : Finset String) :=
  system_label_exemption.2.1 M0 (some p0) ["a", "b", "Self-Hosted-gpu"]
    {"b"} "Self-Hosted-gpu" (by decide) (by decide)

/-- **C1** (code bug). The provisioning-time quota count filters on
statuses `{pending, active, offline}` while the sync engine writes the
status `online` (never `active`) for a live registered runner: with
`maxRunners = 1` and one `online` runner owned by `user1`, the specified
non-terminal count is 1 (so the claimed quota error must be raised), but
the code counts 0, the quota check passes, and only a count of 1 would
have raised. -/
theorem quota_filter_misses_online_runner :
    spec_nonterminal_count [onlineRunner] "user1" = 1 ∧
      active_runner_count [onlineRunner] "user1" = 0 ∧
      provision_quota_error (some p0) [onlineRunner] "user1" = false ∧
      check_runner_quota (some p0) 1 = true := by
  decide

/-- **C2** (code bug). The post-registration verification task
(`runner_service.py` lines 520–523) sets `status = "deleted"` on a
violating runner without clearing `registration_token`, breaking the
`deleted ⇒ credential cleared` invariant that the reconciliation
`_mark_deleted` primitive and `deprovision_runner` do maintain: on the
pending runner holding token `"tok"` whose external labels mismatch, the
resulting record is deleted yet still carries the token. -/
theorem verification_delete_leaves_token_set :
    ((verify_labels_step 500 pendingRunner (some gHacked) ["gpu"] none).1).status
        = "deleted" ∧
      ((verify_labels_step 500 pendingRunner (some gHacked) ["gpu"]
          none).1).registration_token = some "tok" ∧
      (mark_deleted 500 pendingRunner).registration_token = none ∧
      (deprovision_update 500 pendingRunner).registration_token = none := by
  decide

/-- Counterexample for C4: on the JIT runner provisioned with `["gpu"]`
and the external labels `["self-hosted", "gpu"]`, the system-label-stripped
symmetric difference is empty, yet `_check_label_drift` detects drift and
deletes the runner — the drift comparison does not strip system labels. -/
theorem drift_check_counts_system_labels :
    check_label_drift settings0 jitRunner gSystemOnly =
        .deleted (drift_event jitRunner gSystemOnly "runner_deleted") ∧
      verify_labels_match ["gpu"] gSystemOnly.labels = ∅ := by
  constructor
  · rfl
  · decide

/-- **C4** (amended). For a JIT runner with `provisioned_labels` stored,
the reconciliation drift check fires exactly when the symmetric difference
of the provisioned and the externally observed label sets — taken raw,
without stripping system labels — is non-empty. -/
theorem jit_drift_iff_raw_label_sets_differ (s : Settings) (r : Runner)
    (g : GitHubRunnerInfo) (pl : List String)
    (hm : r.provisioning_method = "jit")
    (hp : r.provisioned_labels = some pl) :
    check_label_drift s r g = .noDrift ↔
      pl.toFinset = g.labels.toFinset := by
  rw [check_label_drift_eq s r g pl hm hp]
  split_ifs with h hb
  · simp only [true_iff]
    obtain ⟨h1, h2⟩ := h
    exact Finset.Subset.antisymm (Finset.sdiff_eq_empty_iff_subset.1 h2)
      (Finset.sdiff_eq_empty_iff_subset.1 h1)
  · have hne : pl.toFinset ≠ g.labels.toFinset := by
      intro he
      exact h ⟨by simp [he], by simp [he]⟩
    simp [hne]
  · have hne : pl.toFinset ≠ g.labels.toFinset := by
      intro he
      exact h ⟨by simp [he], by simp [he]⟩
    simp [hne]

/-- Witness for C4: on the JIT runner provisioned with `["gpu"]` and an
external record with exactly `["gpu"]`, no drift is detected. -/
theorem jit_drift_iff_raw_label_sets_differ_witness :
    check_label_drift settings0 jitRunner gNoDrift = .noDrift :=
  (jit_drift_iff_raw_label_sets_differ settings0 jitRunner gNoDrift ["gpu"]
    rfl rfl).mpr (by decide)

/-- Counterexample for C3: one cycle over the offline JIT runner whose
busy external record drifted (delete-busy flag off) logs the event but
then syncs the status from the external record (offline → online, counted
as an update) and reports `label_drifts = 0` — the claim's "status
unchanged" and "counted as a label drift" both fail. -/
theorem busy_drift_cycle_counterexample :
    (sync_all_runners M0 noPolicies settings0 1000 [jitRunner]
        (.ok [gBusyDrifted])).1.map Runner.status = ["online"] ∧
      jitRunner.status = "offline" ∧
      (sync_all_runners M0 noPolicies settings0 1000 [jitRunner]
          (.ok [gBusyDrifted])).2 =
        .ok ({ updated := 1 },
          [drift_event jitRunner gBusyDrifted "logged_only"], []) := by
  exact ⟨rfl, rfl, rfl⟩

/-- **C3** (amended). For a JIT runner found externally with drifted raw
labels, busy, and the delete-busy flag off: the cycle logs one
high-severity `label_drift_detected` event with `actionTaken =
"logged_only"`, attempts no external deletion and does not mark the runner
deleted, but then falls through to the normal status sync — the runner's
status is set from the external record (unchanged only when they already
agree) and the runner is counted as updated or unchanged, not as a label
drift, in the cycle summary. -/
theorem busy_drift_logged_only_defers (M : RegexEngine)
    (policies : String → Option LabelPolicy) (s : Settings) (now : Int)
    (r : Runner) (g : GitHubRunnerInfo) (pl : List String)
    (hpol : validate_labels M (policies r.provisioned_by) g.labels = none)
    (hm : r.provisioning_method = "jit")
    (hp : r.provisioned_labels = some pl)
    (hdrift : pl.toFinset ≠ g.labels.toFinset)
    (hbusy : g.busy = true)
    (hflag : s.label_drift_delete_busy_runners = false) :
    process_runner M policies s now (some g) r =
      { runner := (update_runner_from_github now r g).1
        res :=
          if (update_runner_from_github now r g).2 then { updated := 1 }
          else { unchanged := 1 }
        events := [drift_event r g "logged_only"]
        deletes := [] } ∧
    (process_runner M policies s now (some g) r).runner.status = g.status ∧
    (process_runner M policies s now (some g) r).runner.deleted_at =
      r.deleted_at ∧
    (process_runner M policies s now (some g) r).res.label_drifts = 0 ∧
    (process_runner M policies s now (some g) r).res.deleted = 0 := by
  have hd : check_label_drift s r g =
      .loggedOnly (drift_event r g "logged_only") := by
    have hne : ¬(g.labels.toFinset \ pl.toFinset = ∅ ∧
        pl.toFinset \ g.labels.toFinset = ∅) := by
      rintro ⟨h1, h2⟩
      exact hdrift (Finset.Subset.antisymm
        (Finset.sdiff_eq_empty_iff_subset.1 h2)
        (Finset.sdiff_eq_empty_iff_subset.1 h1))
    rw [check_label_drift_eq s r g pl hm hp, if_neg hne,
      if_pos (by simp [hbusy, hflag])]
  have h1 : process_runner M policies s now (some g) r =
      { runner := (update_runner_from_github now r g).1
        res :=
          if (update_runner_from_github now r g).2 then { updated := 1 }
          else { unchanged := 1 }
        events := [drift_event r g "logged_only"]
        deletes := [] } := by
    rcases hu : update_runner_from_github now r g with ⟨r', changed⟩
    simp only [process_runner, hpol, hd, hu]
  refine ⟨h1, ?_, ?_, ?_, ?_⟩
  · rw [h1]
    exact update_runner_status now r g
  · rw [h1]
    exact update_runner_deleted_at now r g
  · rw [h1]
    cases hc : (update_runner_from_github now r g).2 <;> simp [hc]
  · rw [h1]
    cases hc : (update_runner_from_github now r g).2 <;> simp [hc]

/-- Witness for C3 (amended): the offline busy-drifted JIT runner fixture
satisfies every hypothesis, and its per-runner processing yields the
logged-only event, status `online`, and zero drift/deletion counts. -/
theorem busy_drift_logged_only_defers_witness :
    (process_runner M0 noPolicies settings0 1000 (some gBusyDrifted)
        jitRunner).runner.status = "online" ∧
      (process_runner M0 noPolicies settings0 1000 (some gBusyDrifted)
        jitRunner).res.label_drifts = 0 :=
  ⟨(busy_drift_logged_only_defers M0 noPolicies settings0 1000 jitRunner
      gBusyDrifted ["gpu"] rfl rfl rfl (by decide) rfl rfl).2.1,
   (busy_drift_logged_only_defers M0 noPolicies settings0 1000 jitRunner
      gBusyDrifted ["gpu"] rfl rfl rfl (by decide) rfl rfl).2.2.2.1⟩

/-- **C6.** A non-terminal local runner absent from the external listing:
while `pending` it is marked deleted (counted as a deletion) exactly when
its credential is expired — the explicit expiry timestamp when present,
otherwise the creation-age fallback cutoff — and counted as unchanged
otherwise; in any other status it is always marked deleted with
`deleted_at` set and counted as a deletion. -/
theorem absent_runner_transition (M : RegexEngine)
    (policies : String → Option LabelPolicy) (s : Settings) (now : Int)
    (r : Runner) (_hnd : r.status ≠ "deleted") :
    (r.status = "pending" →
      (is_token_expired s now r = true →
        process_runner M policies s now none r =
          { runner := mark_deleted now r, res := { deleted := 1 },
            events := [], deletes := [] }) ∧
      (is_token_expired s now r = false →
        process_runner M policies s now none r =
          { runner := r, res := { unchanged := 1 },
            events := [], deletes := [] })) ∧
    (r.status ≠ "pending" →
      process_runner M policies s now none r =
        { runner := mark_deleted now r, res := { deleted := 1 },
          events := [], deletes := [] }) ∧
    (mark_deleted now r).status = "deleted" ∧
    (mark_deleted now r).deleted_at = some now ∧
    is_token_expired s now r =
      (match r.registration_token_expires_at with
       | none =>
         decide (r.created_at < now - s.cleanup_stale_runners_hours * 3600)
       | some expiry => decide (expiry < now)) := by
  refine ⟨?_, ?_, rfl, rfl, rfl⟩
  · intro hpend
    constructor
    · intro hexp
      simp only [process_runner]
      rw [if_pos (by simp [hpend]), if_pos hexp]
    · intro hexp
      simp only [process_runner]
      rw [if_pos (by simp [hpend]), if_neg (by simp [hexp])]
  · intro hnp
    simp only [process_runner]
    rw [if_neg (by simp [hnp])]

/-- Witness for C6: the pending fixture (token expiring at 100) is expired
at time 500 and is marked deleted with a deletion count of one. -/
theorem absent_runner_transition_witness :
    process_runner M0 noPolicies settings0 500 none pendingRunner =
      { runner := mark_deleted 500 pendingRunner, res := { deleted := 1 },
        events := [], deletes := [] } :=
  ((absent_runner_transition M0 noPolicies settings0 500 pendingRunner
    (by decide)).1 rfl).1 (by decide)

/-- **C7.** When the single `list_runners()` call of a cycle fails with a
rate-limit (HTTP 403) or network error and there is at least one
non-deleted local runner, `sync_all_runners` raises the corresponding
error and returns the local database unchanged — the cycle aborts before
touching any record. -/
theorem listing_failure_aborts_cycle (M : RegexEngine)
    (policies : String → Option LabelPolicy) (s : Settings) (now : Int)
    (db : List Runner)
    (h : (db.filter (fun r => r.status != "deleted")).isEmpty = false) :
    sync_all_runners M policies s now db (.httpError 403) =
        (db, .error .rateLimited) ∧
      sync_all_runners M policies s now db .networkError =
        (db, .error .networkError) := by
  constructor
  · simp only [sync_all_runners]
    rw [if_neg (by simp [h])]
    rfl
  · simp only [sync_all_runners]
    rw [if_neg (by simp [h])]

/-- Witness for C7: with one pending runner in the database, a 403 listing
aborts with the rate-limit error and a request error aborts with the
network error, the database unchanged. -/
theorem listing_failure_aborts_cycle_witness :
    sync_all_runners M0 noPolicies settings0 0 [pendingRunner]
        (.httpError 403) = ([pendingRunner], .error .rateLimited) ∧
      sync_all_runners M0 noPolicies settings0 0 [pendingRunner]
        .networkError = ([pendingRunner], .error .networkError) :=
  listing_failure_aborts_cycle M0 noPolicies settings0 0 [pendingRunner]
    (by decide)

/-- The local-database component of the reconciliation loop is a pointwise
map: deleted rows pass through untouched, all others are processed. -/
theorem sync_runners_loop_fst (M : RegexEngine)
    (policies : String → Option LabelPolicy) (s : Settings) (now : Int)
    (lookup : String → Option GitHubRunnerInfo) (db : List Runner) :
    (sync_runners_loop M policies s now lookup db).1 =
      db.map (fun r =>
        if r.status == "deleted" then r
        else (process_runner M policies s now (lookup r.runner_name)
          r).runner) := by
  induction db with
  | nil => rfl
  | cons r rest ih =>
    rcases hrec : sync_runners_loop M policies s now lookup rest with
      ⟨dbR, resR, evsR, delsR⟩
    rw [hrec] at ih
    simp only [sync_runners_loop, hrec]
    by_cases h : (r.status == "deleted") = true
    · rw [if_pos h]
      show r :: dbR = _
      rw [List.map_cons, if_pos h]
      exact congrArg (List.cons r) ih
    · rw [if_neg h]
      show (process_runner M policies s now (lookup r.runner_name) r).runner
          :: dbR = _
      rw [List.map_cons, if_neg h]
      exact congrArg (List.cons _) ih

/-- **C8.** The deleted state is absorbing under reconciliation:
`sync_all_runners` never selects a deleted runner (a deleted row is
returned unchanged at its position), and `sync_runner` returns a deleted
runner as-is, with the database untouched. -/
theorem deleted_state_absorbing :
    (∀ (M : RegexEngine) (policies : String → Option LabelPolicy)
        (s : Settings) (now : Int) (db : List Runner)
        (listing : ListingOutcome) (i : Nat) (r : Runner),
        db[i]? = some r → r.status = "deleted" →
        (sync_all_runners M policies s now db listing).1[i]? = some r) ∧
    (∀ (now : Int) (db : List Runner) (runner_id : String)
        (fetch : Option GitHubRunnerInfo) (r : Runner),
        db.find? (fun x => x.id == runner_id) = some r →
        r.status = "deleted" →
        sync_runner now db runner_id fetch = (db, some r)) := by
  constructor
  · intro M policies s now db listing i r hi hr
    unfold sync_all_runners
    split_ifs with he
    · simpa using hi
    · cases listing with
      | httpError code =>
        by_cases hc : (code == 403) = true <;> simpa [hc] using hi
      | networkError => simpa using hi
      | ok ghs =>
        rcases hloop : sync_runners_loop M policies s now
            (github_by_name ghs) db with ⟨db', res, evs, dels⟩
        have hfst := sync_runners_loop_fst M policies s now
          (github_by_name ghs) db
        rw [hloop] at hfst
        simp only [hloop, hfst, List.getElem?_map, hi, Option.map_some']
        rw [if_pos (by simp [hr])]
  · intro now db runner_id fetch r hf hr
    unfold sync_runner
    rw [hf]
    simp [hr]

/-- Witness for C8: a database holding one deleted runner passes through a
cycle unchanged at its position, and a single-runner sync of it returns
the record as-is. -/
theorem deleted_state_absorbing_witness :
    (sync_all_runners M0 noPolicies settings0 0 [deletedRunner]
        (.ok [])).1[0]? = some deletedRunner ∧
      sync_runner 0 [deletedRunner] "r-4" none =
        ([deletedRunner], some deletedRunner) :=
  ⟨deleted_state_absorbing.1 M0 noPolicies settings0 0 [deletedRunner]
      (.ok []) 0 deletedRunner rfl rfl,
   deleted_state_absorbing.2 0 [deletedRunner] "r-4" none deletedRunner
      (by decide) rfl⟩

end RunnerTokenService
